import Mathlib

/-!
Verification development for the dynarmic A32-on-A64 JIT front door
(`src/backend/A64/a32_interface.cpp`) and the conditional VFP2 decoder
(`src/frontend/A32/decoder/vfp2.h`).

The C++ is shallowly embedded: the mutable `Jit` / `Jit::Impl` /
`Context` objects become records, each member function becomes a pure
function from the old record to the new one, and 32-bit / 64-bit
machine arithmetic is `Nat` with explicit `% 2 ^ 32` / `% 2 ^ 64`
where the C++ performs a narrowing cast or may wrap.

Pieces of the repository that the interface uses but whose sources are
not part of this tree (the `A32JitState` field initialisers and
`ResetRSB`, the emitter's cache bookkeeping, the code arena) are
modelled from the specification; each such definition carries a
`Modelled from the spec:` doc comment.
-/

namespace Dynarmic

/-- The RSB ring size: "a small ring (16 entries)". -/
def RSBSize : Nat := 16

/-- `A32JitState::RSBPtrMask`: ring size minus one (power-of-two ring). -/
def RSBPtrMask : Nat := RSBSize - 1

/-- Modelled from the spec: the sentinel stored in
`rsb_location_descriptors` by `ResetRSB` (`backend/A64/a32_jitstate.cpp`
is not among the sources).  Any value that never collides with a live
unique hash works; the reset ring must simply hold no valid entry. -/
def RSBInvalidDescriptor : Nat := 2 ^ 64 - 1

/-- The guest-state block `A32JitState`, restricted to the fields the
interface file reads and writes: guest registers, extension registers,
the split CPSR fields, the split FPSCR fields, the return stack buffer
and the halt flag.  Field names follow `a32_interface.cpp`. -/
structure A32JitState where
  Reg : List Nat
  ExtReg : List Nat
  CPSR_ge : Nat
  CPSR_et : Nat
  CPSR_q : Nat
  CPSR_nzcv : Nat
  CPSR_jaifm : Nat
  guest_FPCR : Nat
  guest_FPSR : Nat
  FPSCR_IDC : Nat
  FPSCR_UFC : Nat
  FPSCR_mode : Nat
  FPSCR_nzcv : Nat
  rsb_ptr : Nat
  rsb_location_descriptors : List Nat
  rsb_codeptrs : List Nat
  halt_requested : Bool
deriving DecidableEq, Repr

/-- Modelled from the spec: `A32JitState::ResetRSB`
(`backend/A64/a32_jitstate.cpp` is not among the sources).  Resetting
the return stack buffer empties the ring: the pointer returns to its
initial index, every location descriptor becomes the invalid sentinel
and every code pointer becomes null. -/
def A32JitState.ResetRSB (s : A32JitState) : A32JitState :=
  { s with
    rsb_ptr := 0
    rsb_location_descriptors := List.replicate RSBSize RSBInvalidDescriptor
    rsb_codeptrs := List.replicate RSBSize 0 }

/-- Modelled from the spec: the zero-initialised guest-state block
(`impl->jit_state = {};` in `Jit::Reset`, and the `Context`
constructor).  All registers and status fields are zero, the halt flag
is clear and the RSB is reset. -/
def A32JitState.initial : A32JitState :=
  A32JitState.ResetRSB
    { Reg := List.replicate 16 0
      ExtReg := List.replicate 64 0
      CPSR_ge := 0
      CPSR_et := 0
      CPSR_q := 0
      CPSR_nzcv := 0
      CPSR_jaifm := 0
      guest_FPCR := 0
      guest_FPSR := 0
      FPSCR_IDC := 0
      FPSCR_UFC := 0
      FPSCR_mode := 0
      FPSCR_nzcv := 0
      rsb_ptr := 0
      rsb_location_descriptors := []
      rsb_codeptrs := []
      halt_requested := false }

/-- `TransferJitState(dest, src, reset_rsb)` from `a32_interface.cpp`:
copies the guest-visible fields of `src` over `dest`, then either
resets `dest`'s RSB or copies `src`'s RSB through, depending on
`reset_rsb`.  Fields outside the copied list (here: `halt_requested`)
keep `dest`'s values. -/
def TransferJitState (dest src : A32JitState) (reset_rsb : Bool) : A32JitState :=
  let dest :=
    { dest with
      CPSR_ge := src.CPSR_ge
      CPSR_et := src.CPSR_et
      CPSR_q := src.CPSR_q
      CPSR_nzcv := src.CPSR_nzcv
      CPSR_jaifm := src.CPSR_jaifm
      Reg := src.Reg
      ExtReg := src.ExtReg
      guest_FPCR := src.guest_FPCR
      guest_FPSR := src.guest_FPSR
      FPSCR_IDC := src.FPSCR_IDC
      FPSCR_UFC := src.FPSCR_UFC
      FPSCR_mode := src.FPSCR_mode
      FPSCR_nzcv := src.FPSCR_nzcv }
  if reset_rsb then
    dest.ResetRSB
  else
    { dest with
      rsb_ptr := src.rsb_ptr
      rsb_location_descriptors := src.rsb_location_descriptors
      rsb_codeptrs := src.rsb_codeptrs }

/-!
### Pending-invalidation interval set

`boost::icl::interval_set<u32>` as used by the interface: a set of
guest addresses represented by closed intervals.  Only the operations
the interface performs are modelled: `add` of a closed interval
(adding an interval whose upper bound is below its lower bound is a
no-op, as in icl, where such an interval is empty), `clear`, the
emptiness test, and membership (the set semantics icl maintains).
-/

/-- A set of 32-bit addresses as a list of closed intervals.  The
representation invariant maintained by `add` is that every stored
interval is nonempty, so the list is empty exactly when the set is. -/
def IntervalSet : Type := List (Nat × Nat)

instance : DecidableEq IntervalSet := by
  unfold IntervalSet
  infer_instance

instance : Repr IntervalSet := by
  unfold IntervalSet
  infer_instance

/-- The empty interval set. -/
def IntervalSet.empty : IntervalSet := ([] : List (Nat × Nat))

/-- `interval_set::add(discrete_interval::closed(lo, hi))`: adding an
empty interval (`hi < lo`) leaves the set unchanged. -/
def IntervalSet.add (s : IntervalSet) (lo hi : Nat) : IntervalSet :=
  if hi < lo then s else ((lo, hi) :: s : List (Nat × Nat))

/-- `interval_set::empty()`. -/
def IntervalSet.isEmpty (s : IntervalSet) : Bool :=
  List.isEmpty s

/-- Membership: an address belongs to the set iff some stored closed
interval contains it. -/
def IntervalSet.contains (s : IntervalSet) (x : Nat) : Bool :=
  List.any s fun p => decide (p.1 ≤ x ∧ x ≤ p.2)

/-!
### Host code arena and emitter cache

`BlockOfCode` and `A32EmitA64` are external collaborators of the
interface file; their cache-facing behaviour is modelled from the
specification.
-/

/-- Modelled from the spec: the bump-allocated executable arena of
`BlockOfCode` (`backend/A64/block_of_code.cpp` is not among the
sources).  `total_size` is the arena capacity, `used` the bytes
consumed by emitted blocks. -/
structure BlockOfCode where
  total_size : Nat
  used : Nat
deriving DecidableEq, Repr

/-- Modelled from the spec: `BlockOfCode::SpaceRemaining`. -/
def BlockOfCode.SpaceRemaining (b : BlockOfCode) : Nat :=
  b.total_size - b.used

/-- Modelled from the spec: `BlockOfCode::ClearCache` resets the host
code arena (the bump pointer returns to the start). -/
def BlockOfCode.ClearCache (b : BlockOfCode) : BlockOfCode :=
  { b with used := 0 }

/-- A `BlockDescriptor` of the forward map: entry point plus sizes, as
in the spec's `BlockDescriptor { entrypoint, size_in_host_bytes,
size_in_guest_bytes, guest_start_pc }`. -/
structure BlockDescriptor where
  entrypoint : Nat
  size_in_host_bytes : Nat
  size_in_guest_bytes : Nat
  guest_start_pc : Nat
deriving DecidableEq, Repr

/-- Modelled from the spec: the cache-facing state of the emitter
(`backend/A64/a32_emit_a64.cpp` is not among the sources; its header
declares `ClearCache`, `InvalidateCacheRanges` and the fast-dispatch
table).  `block_descriptors` is the forward map (location descriptor →
block descriptor), `block_ranges` the range index, and
`fast_dispatch_table` the direct-mapped dispatch cache, kept abstract
as an association list whose cleared state is the empty list. -/
structure Emitter where
  block_descriptors : List (Nat × BlockDescriptor)
  block_ranges : List (Nat × Nat)
  fast_dispatch_table : List (Nat × Nat)
deriving DecidableEq, Repr

/-- Modelled from the spec: `A32EmitA64::GetBasicBlock` — the forward
map lookup. -/
def Emitter.GetBasicBlock (e : Emitter) (descriptor : Nat) : Option BlockDescriptor :=
  List.lookup descriptor e.block_descriptors

/-- Modelled from the spec: `A32EmitA64::ClearCache` — a full flush of
the emitter's bookkeeping clears the forward map, the range index and
the fast-dispatch table. -/
def Emitter.ClearCache (_e : Emitter) : Emitter :=
  { block_descriptors := []
    block_ranges := []
    fast_dispatch_table := [] }

/-- Modelled from the spec: `A32EmitA64::InvalidateCacheRanges` — the
partial flush removes every forward-map entry and range-index entry
whose guest range overlaps a pending interval, and clears the whole
fast-dispatch table (the cheap variant the spec allows). -/
def Emitter.InvalidateCacheRanges (e : Emitter) (ranges : IntervalSet) : Emitter :=
  let overlaps : Nat → Nat → Bool := fun lo hi =>
    List.any (ranges : List (Nat × Nat)) fun p => decide (p.1 ≤ hi ∧ lo ≤ p.2)
  { block_descriptors := e.block_descriptors.filter fun kv =>
      ! overlaps kv.2.guest_start_pc (kv.2.guest_start_pc + kv.2.size_in_guest_bytes - 1)
    block_ranges := e.block_ranges.filter fun r => ! overlaps r.1 r.2
    fast_dispatch_table := [] }

/-!
### The JIT implementation record and the public façade

`Jit::Impl` and `Jit` from `a32_interface.cpp`, restricted to the
state the public operations touch.  `is_executing` lives on the façade
(`Jit`), everything else inside the implementation record, exactly as
in the source.
-/

/-- `Jit::Impl`: guest state, code arena, emitter caches, and the
queued invalidation requests with their generation counter. -/
structure JitImpl where
  jit_state : A32JitState
  block_of_code : BlockOfCode
  emitter : Emitter
  invalid_cache_generation : Nat
  invalid_cache_ranges : IntervalSet
  invalidate_entire_cache : Bool
deriving DecidableEq, Repr

/-- The public `Jit` façade: the implementation record plus the
`is_executing` flag. -/
structure Jit where
  impl : JitImpl
  is_executing : Bool
deriving DecidableEq, Repr

/-- `Jit::Impl::PerformCacheInvalidation`, line for line: a requested
full flush resets the RSB, the arena and the emitter caches, empties
the queue, clears the flag and bumps the generation; otherwise an
empty queue means nothing happens; otherwise a partial flush resets
the RSB, invalidates the queued ranges, empties the queue and bumps
the generation. -/
def JitImpl.PerformCacheInvalidation (impl : JitImpl) : JitImpl :=
  if impl.invalidate_entire_cache then
    { impl with
      jit_state := impl.jit_state.ResetRSB
      block_of_code := impl.block_of_code.ClearCache
      emitter := impl.emitter.ClearCache
      invalid_cache_ranges := IntervalSet.empty
      invalidate_entire_cache := false
      invalid_cache_generation := impl.invalid_cache_generation + 1 }
  else if impl.invalid_cache_ranges.isEmpty then
    impl
  else
    { impl with
      jit_state := impl.jit_state.ResetRSB
      emitter := impl.emitter.InvalidateCacheRanges impl.invalid_cache_ranges
      invalid_cache_ranges := IntervalSet.empty
      invalid_cache_generation := impl.invalid_cache_generation + 1 }

/-- `Jit::Impl::RequestCacheInvalidation`: while the façade is
executing the request only raises the halt flag; otherwise the
invalidation is performed immediately. -/
def JitImpl.RequestCacheInvalidation (impl : JitImpl) (is_executing : Bool) : JitImpl :=
  if is_executing then
    { impl with jit_state := { impl.jit_state with halt_requested := true } }
  else
    impl.PerformCacheInvalidation

/-- The error taxonomy entry the façade's `ASSERT` raises on a
precondition failure (spec §7). -/
inductive JitError where
  | PreconditionViolated
deriving DecidableEq, Repr

/-- `Jit::Run`.  The body of `Execute()` — the RSB-hinted run of
emitted host code together with whatever the consumer's callbacks do
to the implementation record — is an external collaborator and enters
the model as the parameter `exec`; it observes the façade state in
which it runs (in particular `is_executing = true` and the cleared
halt flag).  A re-entrant call fails the `ASSERT(!is_executing)`;
otherwise the flag is raised, the halt flag cleared, the dispatcher
entered, the pending invalidation serviced on return, and the flag
dropped again by the scope guard. -/
def Jit.Run (exec : Jit → JitImpl) (j : Jit) : Except JitError Jit :=
  if j.is_executing then
    Except.error JitError.PreconditionViolated
  else
    let running : Jit :=
      { is_executing := true
        impl := { j.impl with jit_state := { j.impl.jit_state with halt_requested := false } } }
    let impl_after : JitImpl := (exec running).PerformCacheInvalidation
    Except.ok { impl := impl_after, is_executing := false }

/-- `Jit::ClearCache`: raise the full-flush flag, then request a
safe-point invalidation. -/
def Jit.ClearCache (j : Jit) : Jit :=
  let impl1 : JitImpl := { j.impl with invalidate_entire_cache := true }
  { j with impl := impl1.RequestCacheInvalidation j.is_executing }

/-- `Jit::InvalidateCacheRange(start_address, length)`.  `start_address`
is a `u32` and `length` a `size_t`; the upper bound of the queued
closed interval is `static_cast<u32>(start_address + length - 1)`,
computed in 64-bit arithmetic and truncated, exactly as in the source. -/
def Jit.InvalidateCacheRange (j : Jit) (start_address length : Nat) : Jit :=
  let upper : Nat := ((start_address % 2 ^ 32 + length) % 2 ^ 64 + (2 ^ 64 - 1)) % 2 ^ 64 % 2 ^ 32
  let impl1 : JitImpl :=
    { j.impl with
      invalid_cache_ranges := j.impl.invalid_cache_ranges.add (start_address % 2 ^ 32) upper }
  { j with impl := impl1.RequestCacheInvalidation j.is_executing }

/-- `Jit::Reset`: `ASSERT(!is_executing)` then zero-initialise the
guest-state block. -/
def Jit.Reset (j : Jit) : Except JitError Jit :=
  if j.is_executing then
    Except.error JitError.PreconditionViolated
  else
    Except.ok { j with impl := { j.impl with jit_state := A32JitState.initial } }

/-- `Jit::HaltExecution`: set the halt flag. -/
def Jit.HaltExecution (j : Jit) : Jit :=
  { j with impl := { j.impl with jit_state := { j.impl.jit_state with halt_requested := true } } }

/-!
### Contexts: snapshot and restore
-/

/-- `Context::Impl`: a guest-state block plus the cache generation at
save time. -/
structure Context where
  jit_state : A32JitState
  invalid_cache_generation : Nat
deriving DecidableEq, Repr

/-- The `Context` default constructor: a value-initialised state whose
RSB is then reset (`impl->jit_state.ResetRSB()`), generation zero. -/
def Context.fresh : Context :=
  { jit_state := A32JitState.initial.ResetRSB
    invalid_cache_generation := 0 }

/-- `Jit::SaveContext(Context&)`: transfer the live guest state into
the context without resetting the RSB, and record the current cache
generation. -/
def Jit.SaveContextInto (j : Jit) (ctx : Context) : Context :=
  { jit_state := TransferJitState ctx.jit_state j.impl.jit_state false
    invalid_cache_generation := j.impl.invalid_cache_generation }

/-- `Context Jit::SaveContext() const`: save into a freshly
constructed context. -/
def Jit.SaveContext (j : Jit) : Context :=
  j.SaveContextInto Context.fresh

/-- `Jit::LoadContext`: transfer the context's guest state into the
live state, resetting the RSB exactly when the context's stored
generation differs from the current one. -/
def Jit.LoadContext (j : Jit) (ctx : Context) : Jit :=
  let reset_rsb : Bool := ctx.invalid_cache_generation != j.impl.invalid_cache_generation
  { j with impl :=
      { j.impl with jit_state := TransferJitState j.impl.jit_state ctx.jit_state reset_rsb } }

/-!
### Block lookup with capacity headroom
-/

/-- `MINIMUM_REMAINING_CODESIZE` from `Jit::Impl::GetBasicBlock`:
1 MiB of reserved headroom. -/
def MINIMUM_REMAINING_CODESIZE : Nat := 1 * 1024 * 1024

/-- `Jit::Impl::GetBasicBlock`.  Translation, optimisation and
emission of a missing block are external collaborators entering the
model as the parameter `translateEmit` (it consumes arena space and
registers the block, returning the updated implementation record and
the new block's descriptor).  On a hit the cached descriptor is
returned unchanged; on a miss with less than the reserved headroom
remaining in the arena, a full flush is performed before translating
and emitting.  No error is reported in either case. -/
def JitImpl.GetBasicBlock (translateEmit : JitImpl → Nat → JitImpl × BlockDescriptor)
    (impl : JitImpl) (descriptor : Nat) : JitImpl × BlockDescriptor :=
  match impl.emitter.GetBasicBlock descriptor with
  | some block => (impl, block)
  | none =>
    let impl1 : JitImpl :=
      if impl.block_of_code.SpaceRemaining < MINIMUM_REMAINING_CODESIZE then
        JitImpl.PerformCacheInvalidation { impl with invalidate_entire_cache := true }
      else
        impl
    translateEmit impl1 descriptor

/-!
### The conditional VFP2 decoder

`DecodeVFP2` from `src/frontend/A32/decoder/vfp2.h`.  The table
contents live in an `.inc` file that is not among the sources, so the
decoder is modelled over an arbitrary table, exactly as the template
is generic in its visitor.
-/

/-- A decoder matcher: the `(bits, mask)` pair a bitstring pattern
compiles to. -/
structure VFP2Matcher where
  bits : Nat
  mask : Nat
deriving DecidableEq, Repr

/-- Modelled from the spec: `Decoder::Matcher::Matches`
(`frontend/decoder/matcher.h` is not among the sources): instruction
`x` matches the pattern iff `x & mask == bits`. -/
def VFP2Matcher.Matches (m : VFP2Matcher) (x : Nat) : Bool :=
  x &&& m.mask == m.bits

/-- `DecodeVFP2`: words with `(instruction & 0xF0000000) ==
0xF0000000` are unconditional and never matched; otherwise the first
matcher of the table (in declaration order) that matches is returned,
`none` if there is none. -/
def DecodeVFP2 (table : List VFP2Matcher) (x : Nat) : Option VFP2Matcher :=
  if x &&& 0xF0000000 == 0xF0000000 then
    none
  else
    table.find? fun m => m.Matches x

/-!
### Concrete sample states

Used by counterexamples and by the witnesses that instantiate the
universally quantified theorems below.
-/

/-- A live guest-state block in the middle of a run: nonzero
registers, a populated RSB (its code pointers hold host addresses,
here `0xDEAD`), and the halt flag raised. -/
def exampleLiveState : A32JitState :=
  { Reg := [1, 2, 3, 4, 5, 6, 7, 8, 9, 10, 11, 12, 13, 14, 15, 16]
    ExtReg := List.replicate 64 7
    CPSR_ge := 5
    CPSR_et := 1
    CPSR_q := 1
    CPSR_nzcv := 9
    CPSR_jaifm := 2
    guest_FPCR := 3
    guest_FPSR := 4
    FPSCR_IDC := 1
    FPSCR_UFC := 1
    FPSCR_mode := 6
    FPSCR_nzcv := 8
    rsb_ptr := 5
    rsb_location_descriptors := 77 :: List.replicate 15 0
    rsb_codeptrs := 57005 :: List.replicate 15 0
    halt_requested := true }

/-- An implementation record around `exampleLiveState`: one cached
block, generation 3, no pending invalidation work. -/
def exampleImpl : JitImpl :=
  { jit_state := exampleLiveState
    block_of_code := { total_size := 128 * 1024 * 1024, used := 4096 }
    emitter :=
      { block_descriptors :=
          [(12, { entrypoint := 400, size_in_host_bytes := 32,
                  size_in_guest_bytes := 8, guest_start_pc := 256 })]
        block_ranges := [(256, 263)]
        fast_dispatch_table := [(3, 400)] }
    invalid_cache_generation := 3
    invalid_cache_ranges := IntervalSet.empty
    invalidate_entire_cache := false }

/-- The façade around `exampleImpl`, not currently executing. -/
def exampleJit : Jit :=
  { impl := exampleImpl, is_executing := false }

/-- The façade around `exampleImpl` while inside `Run`. -/
def exampleJitExecuting : Jit :=
  { impl := exampleImpl, is_executing := true }

/-- `exampleImpl` with a queued full flush. -/
def exampleImplFullFlush : JitImpl :=
  { exampleImpl with invalidate_entire_cache := true }

/-- `exampleImpl` with a nearly full arena: 512 bytes of headroom,
below the reserved 1 MiB. -/
def exampleImplLowSpace : JitImpl :=
  { exampleImpl with block_of_code := { total_size := 8192, used := 7680 } }

/-- A trivial stand-in for translate-plus-emit: it registers nothing
and returns a fixed descriptor, enough to instantiate
`JitImpl.GetBasicBlock`. -/
def exampleTranslateEmit : JitImpl → Nat → JitImpl × BlockDescriptor :=
  fun impl _descriptor =>
    (impl, { entrypoint := 0, size_in_host_bytes := 0, size_in_guest_bytes := 0,
             guest_start_pc := 0 })

/-- A saved context whose generation (7) mismatches `exampleImpl`'s
generation (3). -/
def exampleStaleContext : Context :=
  { jit_state := exampleLiveState, invalid_cache_generation := 7 }

/-- A two-entry decoder table: a specific pattern first, then a more
general one overlapping it. -/
def exampleTable : List VFP2Matcher :=
  [{ bits := 0x0E000000, mask := 0x0F00000F }, { bits := 0x0E000000, mask := 0x0F000000 }]

/-!
## Helper lemmas
-/

/-- Resetting the RSB touches only the three RSB fields; in
particular the halt flag survives. -/
theorem resetRSB_halt (s : A32JitState) :
    s.ResetRSB.halt_requested = s.halt_requested := rfl

/-- Servicing invalidation never changes the halt flag. -/
theorem performCacheInvalidation_halt (impl : JitImpl) :
    impl.PerformCacheInvalidation.jit_state.halt_requested =
      impl.jit_state.halt_requested := by
  unfold JitImpl.PerformCacheInvalidation
  split
  · simp [A32JitState.ResetRSB]
  · split
    · rfl
    · simp [A32JitState.ResetRSB]

/-- After servicing, no invalidation work remains queued: the
full-flush flag is clear and the pending range set is empty. -/
theorem performCacheInvalidation_services_all (impl : JitImpl) :
    impl.PerformCacheInvalidation.invalidate_entire_cache = false ∧
      impl.PerformCacheInvalidation.invalid_cache_ranges.isEmpty = true := by
  unfold JitImpl.PerformCacheInvalidation
  split
  · exact ⟨rfl, rfl⟩
  · next hflag =>
    split
    · next hempty =>
      exact ⟨by simpa using hflag, hempty⟩
    · exact ⟨by simpa using hflag, rfl⟩

/-!
## C1 — what `save_context` persists
-/

/-- C1, counterexample: the claim says no host code pointers are
persisted in the saved context, but `SaveContext` transfers the live
RSB — including `rsb_codeptrs`, the host code pointers — into the
context verbatim.  Saving `exampleJit`, whose RSB holds the host
address `0xDEAD = 57005`, yields a context whose code-pointer ring is
not null. -/
theorem saveContext_persists_code_pointers :
    exampleJit.SaveContext.jit_state.rsb_codeptrs =
        exampleJit.impl.jit_state.rsb_codeptrs ∧
      exampleJit.SaveContext.jit_state.rsb_codeptrs ≠ List.replicate RSBSize 0 := by
  constructor
  · rfl
  · decide

/-- C1, amended: `save_context()` stores a serializable snapshot of
the guest-state block — registers, extension registers, the split
CPSR and FPSCR fields, and the RSB *including its code pointers* —
plus the cache generation at save time; nothing else of the live
state (such as the halt flag) is persisted.  Stale code pointers are
never reused because load resets the RSB on generation mismatch. -/
theorem saveContext_spec (j : Jit) :
    j.SaveContext.invalid_cache_generation = j.impl.invalid_cache_generation ∧
      j.SaveContext.jit_state.Reg = j.impl.jit_state.Reg ∧
      j.SaveContext.jit_state.ExtReg = j.impl.jit_state.ExtReg ∧
      j.SaveContext.jit_state.CPSR_ge = j.impl.jit_state.CPSR_ge ∧
      j.SaveContext.jit_state.CPSR_et = j.impl.jit_state.CPSR_et ∧
      j.SaveContext.jit_state.CPSR_q = j.impl.jit_state.CPSR_q ∧
      j.SaveContext.jit_state.CPSR_nzcv = j.impl.jit_state.CPSR_nzcv ∧
      j.SaveContext.jit_state.CPSR_jaifm = j.impl.jit_state.CPSR_jaifm ∧
      j.SaveContext.jit_state.guest_FPCR = j.impl.jit_state.guest_FPCR ∧
      j.SaveContext.jit_state.guest_FPSR = j.impl.jit_state.guest_FPSR ∧
      j.SaveContext.jit_state.FPSCR_IDC = j.impl.jit_state.FPSCR_IDC ∧
      j.SaveContext.jit_state.FPSCR_UFC = j.impl.jit_state.FPSCR_UFC ∧
      j.SaveContext.jit_state.FPSCR_mode = j.impl.jit_state.FPSCR_mode ∧
      j.SaveContext.jit_state.FPSCR_nzcv = j.impl.jit_state.FPSCR_nzcv ∧
      j.SaveContext.jit_state.rsb_ptr = j.impl.jit_state.rsb_ptr ∧
      j.SaveContext.jit_state.rsb_location_descriptors =
        j.impl.jit_state.rsb_location_descriptors ∧
      j.SaveContext.jit_state.rsb_codeptrs = j.impl.jit_state.rsb_codeptrs ∧
      j.SaveContext.jit_state.halt_requested = false := by
  simp [Jit.SaveContext, Jit.SaveContextInto, TransferJitState, Context.fresh,
        A32JitState.initial, A32JitState.ResetRSB]

/-!
## C2 — context round trip
-/

/-- C2: `load_context(save_context())` with no intervening operation
is observably a no-op — the whole façade state, in particular every
guest register, extension register, CPSR field, FPSCR field and the
RSB contents, is unchanged. -/
theorem loadContext_saveContext_roundtrip (j : Jit) :
    j.LoadContext j.SaveContext = j := by
  cases j with
  | mk impl is_exec =>
    cases impl with
    | mk js boc em gen ranges flag =>
      cases js
      simp [Jit.LoadContext, Jit.SaveContext, Jit.SaveContextInto, Context.fresh,
            TransferJitState]

/-!
## C3 — load resets the RSB exactly on generation mismatch
-/

/-- C3: `load_context` resets the live state's RSB — pointer,
location descriptors and code pointers — precisely when the context's
stored cache generation differs from the current one; when the
generations agree the context's RSB contents are copied through
unchanged. -/
theorem loadContext_rsb (j : Jit) (ctx : Context) :
    (ctx.invalid_cache_generation ≠ j.impl.invalid_cache_generation →
      (j.LoadContext ctx).impl.jit_state.rsb_ptr = 0 ∧
        (j.LoadContext ctx).impl.jit_state.rsb_location_descriptors =
          List.replicate RSBSize RSBInvalidDescriptor ∧
        (j.LoadContext ctx).impl.jit_state.rsb_codeptrs = List.replicate RSBSize 0) ∧
      (ctx.invalid_cache_generation = j.impl.invalid_cache_generation →
        (j.LoadContext ctx).impl.jit_state.rsb_ptr = ctx.jit_state.rsb_ptr ∧
          (j.LoadContext ctx).impl.jit_state.rsb_location_descriptors =
            ctx.jit_state.rsb_location_descriptors ∧
          (j.LoadContext ctx).impl.jit_state.rsb_codeptrs = ctx.jit_state.rsb_codeptrs) := by
  constructor
  · intro h
    simp [Jit.LoadContext, TransferJitState, bne, h, A32JitState.ResetRSB]
  · intro h
    simp [Jit.LoadContext, TransferJitState, bne, h]

/-- C3, witness: loading `exampleStaleContext` (generation 7) into
`exampleJit` (generation 3) resets the RSB pointer. -/
theorem loadContext_rsb_witness :
    (exampleJit.LoadContext exampleStaleContext).impl.jit_state.rsb_ptr = 0 :=
  ((loadContext_rsb exampleJit exampleStaleContext).1 (by decide)).1

/-!
## C4 — the `run()` protocol
-/

/-- C4: `run()` has precondition `!is_executing` — a re-entrant call
fails with `PreconditionViolated`.  A permitted call raises
`is_executing`, clears `halt_requested`, and only then hands the
façade to the dispatcher (`exec` receives a state with
`is_executing = true` and the halt flag down); on return from
execution the pending cache invalidation is serviced before `run()`
returns, so the result carries no queued invalidation work and has
`is_executing` lowered again. -/
theorem run_spec (exec : Jit → JitImpl) (j : Jit) :
    (j.is_executing = true → j.Run exec = Except.error JitError.PreconditionViolated) ∧
      (j.is_executing = false →
        j.Run exec = Except.ok
          { is_executing := false
            impl := (exec
              { is_executing := true
                impl := { j.impl with jit_state :=
                  { j.impl.jit_state with halt_requested := false } } }).PerformCacheInvalidation }) ∧
      (∀ j', j.Run exec = Except.ok j' →
        j'.is_executing = false ∧
          j'.impl.invalidate_entire_cache = false ∧
          j'.impl.invalid_cache_ranges.isEmpty = true) := by
  refine ⟨fun h => ?_, fun h => ?_, fun j' h => ?_⟩
  · simp [Jit.Run, h]
  · simp [Jit.Run, h]
  · unfold Jit.Run at h
    split at h
    · cases h
    · injection h with h
      subst h
      exact ⟨rfl, (performCacheInvalidation_services_all _).1,
        (performCacheInvalidation_services_all _).2⟩

/-- C4, witness: a re-entrant `Run` on `exampleJitExecuting` fails
with `PreconditionViolated`, and a permitted `Run` on `exampleJit`
(with a do-nothing dispatcher) leaves no queued invalidation work. -/
theorem run_spec_witness :
    Jit.Run (fun r => r.impl) exampleJitExecuting =
        Except.error JitError.PreconditionViolated ∧
      (Jit.Run (fun r => r.impl) exampleJit).isOk = true :=
  ⟨(run_spec (fun r => r.impl) exampleJitExecuting).1 rfl,
    by rw [((run_spec (fun r => r.impl) exampleJit).2.1 rfl)]; rfl⟩

/-!
## C6 — servicing a full flush, and the generation counter
-/

/-- C6: servicing a full-flush request resets the RSB of the live
guest-state block, resets the host code arena, clears the forward
map, the range index and the fast-dispatch table, empties the pending
invalidation range set and clears the full-flush flag; and servicing
any invalidation — full or partial — increments the cache generation
counter by exactly one. -/
theorem performCacheInvalidation_full_flush (impl : JitImpl)
    (h : impl.invalidate_entire_cache = true ∨ impl.invalid_cache_ranges.isEmpty = false) :
    impl.PerformCacheInvalidation.invalid_cache_generation =
        impl.invalid_cache_generation + 1 ∧
      (impl.invalidate_entire_cache = true →
        impl.PerformCacheInvalidation.jit_state = impl.jit_state.ResetRSB ∧
          impl.PerformCacheInvalidation.block_of_code.used = 0 ∧
          impl.PerformCacheInvalidation.emitter.block_descriptors = [] ∧
          impl.PerformCacheInvalidation.emitter.block_ranges = [] ∧
          impl.PerformCacheInvalidation.emitter.fast_dispatch_table = [] ∧
          impl.PerformCacheInvalidation.invalid_cache_ranges = IntervalSet.empty ∧
          impl.PerformCacheInvalidation.invalidate_entire_cache = false) := by
  constructor
  · unfold JitImpl.PerformCacheInvalidation
    split
    · rfl
    · next hflag =>
      split
      · next hempty =>
        rcases h with h | h
        · exact absurd h (by simpa using hflag)
        · exact absurd hempty (by simp [h])
      · rfl
  · intro hfull
    simp [JitImpl.PerformCacheInvalidation, hfull, BlockOfCode.ClearCache,
          Emitter.ClearCache]

/-- C6, witness: servicing the queued full flush of
`exampleImplFullFlush` bumps the generation from 3 to 4 and clears
the forward map. -/
theorem performCacheInvalidation_full_flush_witness :
    exampleImplFullFlush.PerformCacheInvalidation.invalid_cache_generation =
        exampleImplFullFlush.invalid_cache_generation + 1 ∧
      exampleImplFullFlush.PerformCacheInvalidation.emitter.block_descriptors = [] :=
  ⟨(performCacheInvalidation_full_flush exampleImplFullFlush (Or.inl rfl)).1,
    ((performCacheInvalidation_full_flush exampleImplFullFlush (Or.inl rfl)).2 rfl).2.2.1⟩

/-!
## C10 — servicing with no pending work is a no-op
-/

/-- C10: if no full flush has been requested and the pending
invalidation range set is empty, `PerformCacheInvalidation` — which
`Run` invokes unconditionally on every return — changes nothing at
all: the generation counter, the RSB, the code caches and every other
part of the implementation record are left exactly as they were. -/
theorem performCacheInvalidation_frame (impl : JitImpl)
    (hflag : impl.invalidate_entire_cache = false)
    (hranges : impl.invalid_cache_ranges.isEmpty = true) :
    impl.PerformCacheInvalidation = impl := by
  unfold JitImpl.PerformCacheInvalidation
  simp [hflag, hranges]

/-- C10, witness: `exampleImpl` has no queued work, and servicing it
is the identity. -/
theorem performCacheInvalidation_frame_witness :
    exampleImpl.PerformCacheInvalidation = exampleImpl :=
  performCacheInvalidation_frame exampleImpl rfl rfl

/-!
## C7 — capacity headroom forces a full flush on a miss
-/

/-- C7: on a code-cache miss with less than 1 MiB of arena space
remaining, `GetBasicBlock` performs a full cache flush and hands the
flushed state — generation bumped, arena and caches empty — to
translate-and-emit; the function is total, so the capacity condition
self-heals and no error is reported. -/
theorem getBasicBlock_capacity_flush
    (translateEmit : JitImpl → Nat → JitImpl × BlockDescriptor)
    (impl : JitImpl) (descriptor : Nat)
    (hmiss : impl.emitter.GetBasicBlock descriptor = none)
    (hlow : impl.block_of_code.SpaceRemaining < MINIMUM_REMAINING_CODESIZE) :
    JitImpl.GetBasicBlock translateEmit impl descriptor =
        translateEmit
          (JitImpl.PerformCacheInvalidation
            { impl with invalidate_entire_cache := true }) descriptor ∧
      (JitImpl.PerformCacheInvalidation
            { impl with invalidate_entire_cache := true }).invalid_cache_generation =
        impl.invalid_cache_generation + 1 ∧
      (JitImpl.PerformCacheInvalidation
            { impl with invalidate_entire_cache := true }).block_of_code.used = 0 ∧
      (JitImpl.PerformCacheInvalidation
            { impl with invalidate_entire_cache := true }).emitter.block_descriptors = [] := by
  refine ⟨?_, rfl, rfl, rfl⟩
  unfold JitImpl.GetBasicBlock
  rw [hmiss]
  simp [hlow]

/-- C7, witness: looking up the uncached descriptor 99 in the
low-headroom `exampleImplLowSpace` flushes first, bumping the
generation to 4. -/
theorem getBasicBlock_capacity_flush_witness :
    JitImpl.GetBasicBlock exampleTranslateEmit exampleImplLowSpace 99 =
      exampleTranslateEmit
        (JitImpl.PerformCacheInvalidation
          { exampleImplLowSpace with invalidate_entire_cache := true }) 99 :=
  (getBasicBlock_capacity_flush exampleTranslateEmit exampleImplLowSpace 99
    (by decide) (by decide)).1

/-!
## C5 — `invalidate_range` queues a closed interval, then stops at a
safe point
-/

/-- The upper bound `static_cast<u32>(start + length - 1)` computed by
`InvalidateCacheRange` equals the exact `start + length - 1` whenever
the range is nonempty and does not wrap the 32-bit address space. -/
theorem invalidate_upper_eq (start length : Nat) (hlen : 1 ≤ length)
    (hbound : start + length ≤ 2 ^ 32) :
    ((start + length) % 2 ^ 64 + (2 ^ 64 - 1)) % 2 ^ 64 % 2 ^ 32 =
      start + length - 1 := by
  have h64 : (start + length) % 2 ^ 64 = start + length := Nat.mod_eq_of_lt (by omega)
  rw [h64]
  have hsplit : start + length + (2 ^ 64 - 1) = start + length - 1 + 2 ^ 64 := by omega
  rw [hsplit, Nat.add_mod_right, Nat.mod_eq_of_lt (by omega), Nat.mod_eq_of_lt (by omega)]

/-- C5, amended: for every start address and every nonempty,
non-wrapping length (`1 ≤ length` and `start + length ≤ 2^32`),
`invalidate_range(start, length)` adds exactly the closed interval
`[start, start+length-1]` to the pending invalidation set; then, if
the consumer is inside `Run` the request only raises `halt_requested`
and mutates no cache state (emitter, arena and generation are
untouched), while outside `Run` the queued invalidation is performed
immediately.  (For `length = 0` or a wrapping range the queued upper
bound is the truncated `(start+length-1) mod 2^32` and an interval
whose upper bound is below `start` is dropped — see the
counterexample.) -/
theorem invalidateCacheRange_spec (j : Jit) (start length : Nat)
    (hlen : 1 ≤ length) (hbound : start + length ≤ 2 ^ 32) :
    (j.is_executing = true →
      (∀ x, (j.InvalidateCacheRange start length).impl.invalid_cache_ranges.contains x =
        (j.impl.invalid_cache_ranges.contains x ||
          decide (start ≤ x ∧ x ≤ start + length - 1))) ∧
      (j.InvalidateCacheRange start length).impl.jit_state =
        { j.impl.jit_state with halt_requested := true } ∧
      (j.InvalidateCacheRange start length).impl.emitter = j.impl.emitter ∧
      (j.InvalidateCacheRange start length).impl.block_of_code = j.impl.block_of_code ∧
      (j.InvalidateCacheRange start length).impl.invalid_cache_generation =
        j.impl.invalid_cache_generation) ∧
    (j.is_executing = false →
      (j.InvalidateCacheRange start length).impl =
        JitImpl.PerformCacheInvalidation
          ({ j.impl with invalid_cache_ranges :=
              j.impl.invalid_cache_ranges.add start (start + length - 1) })) := by
  have hs32 : start % 2 ^ 32 = start := Nat.mod_eq_of_lt (by omega)
  have hupper := invalidate_upper_eq start length hlen hbound
  constructor
  · intro hex
    refine ⟨?_, ?_, ?_, ?_, ?_⟩
    · intro x
      simp only [Jit.InvalidateCacheRange, hs32, hupper,
        JitImpl.RequestCacheInvalidation, hex, if_true]
      have hle : ¬ (start + length - 1 < start) := by omega
      simp only [IntervalSet.add, if_neg hle, IntervalSet.contains, List.any_cons]
      rw [Bool.or_comm]
    · simp [Jit.InvalidateCacheRange, JitImpl.RequestCacheInvalidation, hex]
    · simp [Jit.InvalidateCacheRange, JitImpl.RequestCacheInvalidation, hex]
    · simp [Jit.InvalidateCacheRange, JitImpl.RequestCacheInvalidation, hex]
    · simp [Jit.InvalidateCacheRange, JitImpl.RequestCacheInvalidation, hex]
  · intro hex
    simp only [Jit.InvalidateCacheRange, hs32, hupper,
      JitImpl.RequestCacheInvalidation, hex, Bool.false_eq_true, if_false]

/-- C5, counterexample to the unrestricted claim: at `start = 0`,
`length = 0` the code computes the truncated upper bound
`static_cast<u32>(0 + 0 - 1) = 0xFFFFFFFF` and queues the entire
address space, although the claimed interval `[0, 0+0-1] = [0, -1]`
is empty: address `42` enters the pending set. -/
theorem invalidateCacheRange_zero_counterexample :
    (exampleJitExecuting.InvalidateCacheRange 0 0).impl.invalid_cache_ranges.contains 42 =
        true ∧
      exampleJitExecuting.impl.invalid_cache_ranges.contains 42 = false ∧
      ¬ ((0 : Int) ≤ 42 ∧ (42 : Int) ≤ 0 + 0 - 1) := by
  refine ⟨by decide, by decide, by decide⟩

/-- C5, witness: invalidating `[16, 19]` while executing queues
exactly that interval (address 17 becomes pending) and raises only
the halt flag. -/
theorem invalidateCacheRange_spec_witness :
    (exampleJitExecuting.InvalidateCacheRange 16 4).impl.invalid_cache_ranges.contains 17 =
        (exampleJitExecuting.impl.invalid_cache_ranges.contains 17 ||
          decide (16 ≤ 17 ∧ 17 ≤ 16 + 4 - 1)) ∧
      (exampleJitExecuting.InvalidateCacheRange 16 4).impl.jit_state =
        { exampleJitExecuting.impl.jit_state with halt_requested := true } :=
  ⟨((invalidateCacheRange_spec exampleJitExecuting 16 4 (by decide) (by norm_num)).1 rfl).1 17,
    ((invalidateCacheRange_spec exampleJitExecuting 16 4 (by decide) (by norm_num)).1 rfl).2.1⟩

/-!
## C8 — who sets and who clears the halt flag
-/

/-- `TransferJitState` never copies the halt flag: the destination's
value survives both branches. -/
theorem transferJitState_halt (dest src : A32JitState) (b : Bool) :
    (TransferJitState dest src b).halt_requested = dest.halt_requested := by
  unfold TransferJitState
  split <;> simp [A32JitState.ResetRSB]

/-- C8, amended: `halt_requested` is set by `HaltExecution` and by
cache-invalidation requests (`ClearCache`, `InvalidateCacheRange`)
made while executing; requests made while not executing leave it
unchanged; `Run` clears it on entry before handing control to the
dispatcher; `Reset` also clears it, as part of zero-initialising the
whole guest-state block; `LoadContext` leaves it unchanged.  No
façade operation other than `Run` and `Reset` clears it. -/
theorem halt_flag_discipline :
    (∀ j : Jit, j.HaltExecution.impl.jit_state.halt_requested = true) ∧
      (∀ impl : JitImpl,
        (impl.RequestCacheInvalidation true).jit_state.halt_requested = true) ∧
      (∀ impl : JitImpl,
        (impl.RequestCacheInvalidation false).jit_state.halt_requested =
          impl.jit_state.halt_requested) ∧
      (∀ j : Jit, j.is_executing = true →
        j.ClearCache.impl.jit_state.halt_requested = true) ∧
      (∀ j : Jit, j.is_executing = false →
        j.ClearCache.impl.jit_state.halt_requested = j.impl.jit_state.halt_requested) ∧
      (∀ (j : Jit) (s l : Nat), j.is_executing = true →
        (j.InvalidateCacheRange s l).impl.jit_state.halt_requested = true) ∧
      (∀ (j : Jit) (s l : Nat), j.is_executing = false →
        (j.InvalidateCacheRange s l).impl.jit_state.halt_requested =
          j.impl.jit_state.halt_requested) ∧
      (∀ (exec : Jit → JitImpl) (j : Jit), j.is_executing = false →
        j.Run exec = Except.ok
          { is_executing := false
            impl := (exec
              { is_executing := true
                impl := { j.impl with jit_state :=
                  { j.impl.jit_state with halt_requested := false } } }).PerformCacheInvalidation }) ∧
      (∀ j : Jit, j.is_executing = false →
        j.Reset = Except.ok { j with impl := { j.impl with jit_state := A32JitState.initial } }) ∧
      A32JitState.initial.halt_requested = false ∧
      (∀ (j : Jit) (ctx : Context),
        (j.LoadContext ctx).impl.jit_state.halt_requested =
          j.impl.jit_state.halt_requested) := by
  refine ⟨fun j => rfl, fun impl => rfl, fun impl => ?_, fun j h => ?_, fun j h => ?_,
    fun j s l h => ?_, fun j s l h => ?_, fun exec j h => ?_, fun j h => ?_, rfl,
    fun j ctx => ?_⟩
  · simp [JitImpl.RequestCacheInvalidation, performCacheInvalidation_halt]
  · simp [Jit.ClearCache, JitImpl.RequestCacheInvalidation, h]
  · simp [Jit.ClearCache, JitImpl.RequestCacheInvalidation, h,
      performCacheInvalidation_halt]
  · simp [Jit.InvalidateCacheRange, JitImpl.RequestCacheInvalidation, h]
  · simp [Jit.InvalidateCacheRange, JitImpl.RequestCacheInvalidation, h,
      performCacheInvalidation_halt]
  · simp [Jit.Run, h]
  · simp [Jit.Reset, h]
  · simp [Jit.LoadContext, transferJitState_halt]

/-- C8, counterexample to the claim as stated: `Reset` —
zero-initialising the guest-state block — also clears a raised halt
flag, so `Run` is not the only façade operation that clears it.
`exampleJit` has the flag up and is not executing; after `Reset` the
flag is down. -/
theorem reset_clears_halt_counterexample :
    exampleJit.impl.jit_state.halt_requested = true ∧
      exampleJit.Reset = Except.ok
        { exampleJit with impl := { exampleJit.impl with jit_state := A32JitState.initial } } ∧
      A32JitState.initial.halt_requested = false := by
  refine ⟨rfl, rfl, rfl⟩

/-- C8, witness: `ClearCache` outside `Run` leaves the flag as it
was, and inside `Run` raises it. -/
theorem halt_flag_discipline_witness :
    exampleJit.ClearCache.impl.jit_state.halt_requested =
        exampleJit.impl.jit_state.halt_requested ∧
      exampleJitExecuting.ClearCache.impl.jit_state.halt_requested = true :=
  ⟨halt_flag_discipline.2.2.2.2.1 exampleJit rfl,
    halt_flag_discipline.2.2.2.1 exampleJitExecuting rfl⟩

/-!
## C9 — the conditional VFP2 decoder
-/

/-- For a 32-bit word, masking with `0xF0000000` isolates the top
nibble, shifted into place. -/
theorem and_high_mask (x : Nat) (hx : x < 2 ^ 32) :
    x &&& 0xF0000000 = (x >>> 28) <<< 28 := by
  apply Nat.eq_of_testBit_eq
  intro i
  rw [Nat.testBit_and, Nat.testBit_shiftLeft, Nat.testBit_shiftRight]
  by_cases h28 : 28 ≤ i
  · by_cases h32 : i < 32
    · have hm : (0xF0000000 : Nat).testBit i = true := by
        interval_cases i <;> decide
      have hi : 28 + (i - 28) = i := by omega
      rw [hm, hi]
      simp [h28]
    · have hxle : x < 2 ^ i := lt_of_lt_of_le hx (Nat.pow_le_pow_right (by norm_num) (by omega))
      have hxb : x.testBit i = false := Nat.testBit_lt_two_pow hxle
      have hi : 28 + (i - 28) = i := by omega
      rw [hi, hxb]
      simp
  · have hm : (0xF0000000 : Nat).testBit i = false := by
      interval_cases i <;> decide
    simp [hm, h28]

/-- The decoder's unconditional-instruction test `(x & 0xF0000000) ==
0xF0000000` holds exactly when the word's top nibble is `0xF`. -/
theorem decode_condition (x : Nat) (hx : x < 2 ^ 32) :
    x &&& 0xF0000000 = 0xF0000000 ↔ x >>> 28 = 0xF := by
  rw [and_high_mask x hx]
  constructor
  · intro h
    have h15 : (0xF0000000 : Nat) = 15 <<< 28 := by decide
    rw [h15, Nat.shiftLeft_eq, Nat.shiftLeft_eq] at h
    exact Nat.eq_of_mul_eq_mul_right (by norm_num) h
  · intro h
    rw [h]
    decide

/-- `List.find?` returns exactly the first element, in order, that
satisfies the predicate. -/
theorem find?_first {α : Type} (p : α → Bool) (l : List α) (m : α) :
    l.find? p = some m ↔
      ∃ i, ∃ hi : i < l.length, l.get ⟨i, hi⟩ = m ∧ p m = true ∧
        ∀ j, ∀ hj : j < l.length, j < i → p (l.get ⟨j, hj⟩) = false := by
  induction l with
  | nil => simp
  | cons a l ih =>
    by_cases hpa : p a = true
    · rw [List.find?_cons_of_pos _ hpa]
      constructor
      · intro h
        injection h with h
        subst h
        exact ⟨0, by simp, rfl, hpa, fun j hj hlt => absurd hlt (Nat.not_lt_zero j)⟩
      · rintro ⟨i, hi, hget, hpm, hfirst⟩
        cases i with
        | zero => simpa using congrArg some hget
        | succ k =>
          have := hfirst 0 (by simp) (Nat.succ_pos k)
          simp [hpa] at this
    · have hpa' : p a = false := by simpa using hpa
      rw [List.find?_cons_of_neg _ hpa]
      rw [ih]
      constructor
      · rintro ⟨i, hi, hget, hpm, hfirst⟩
        refine ⟨i + 1, by simpa using Nat.succ_lt_succ hi, by simpa using hget, hpm, ?_⟩
        intro j hj hlt
        cases j with
        | zero => simpa using hpa'
        | succ k =>
          exact hfirst k (by simpa using Nat.lt_of_succ_lt_succ hj) (Nat.lt_of_succ_lt_succ hlt)
      · rintro ⟨i, hi, hget, hpm, hfirst⟩
        cases i with
        | zero =>
          exfalso
          apply hpa
          have : a = m := by simpa using hget
          rw [this]
          exact hpm
        | succ k =>
          refine ⟨k, by simpa using Nat.lt_of_succ_lt_succ hi, by simpa using hget, hpm, ?_⟩
          intro j hj hlt
          have := hfirst (j + 1) (by simpa using Nat.succ_lt_succ hj) (Nat.succ_lt_succ hlt)
          simpa using this

/-- C9: for every 32-bit word whose top nibble is `0xF` the
conditional VFP2 decoder returns `none`; for every other word it
returns the first matcher of the table, in declaration order, whose
`(bits, mask)` pair satisfies `x &&& mask = bits`, and `none` when no
pattern matches. -/
theorem decodeVFP2_spec (table : List VFP2Matcher) (x : Nat) (hx : x < 2 ^ 32) :
    (x >>> 28 = 0xF → DecodeVFP2 table x = none) ∧
      (x >>> 28 ≠ 0xF →
        (∀ m, DecodeVFP2 table x = some m ↔
          ∃ i, ∃ hi : i < table.length, table.get ⟨i, hi⟩ = m ∧ m.Matches x = true ∧
            ∀ j, ∀ hj : j < table.length, j < i →
              (table.get ⟨j, hj⟩).Matches x = false) ∧
        (DecodeVFP2 table x = none ↔ ∀ m ∈ table, m.Matches x = false)) := by
  have hcond := decode_condition x hx
  constructor
  · intro h
    have : (x &&& 0xF0000000 == 0xF0000000) = true := by
      simpa using hcond.mpr h
    simp [DecodeVFP2, this]
  · intro h
    have hc : (x &&& 0xF0000000 == 0xF0000000) = false := by
      simp only [beq_eq_false_iff_ne, ne_eq]
      exact fun hc => h (hcond.mp hc)
    constructor
    · intro m
      rw [DecodeVFP2, hc]
      simp only [Bool.false_eq_true, if_false]
      exact find?_first (fun m => m.Matches x) table m
    · rw [DecodeVFP2, hc]
      simp only [Bool.false_eq_true, if_false]
      rw [List.find?_eq_none]
      constructor
      · intro hall m hm
        simpa using hall m hm
      · intro hall m hm
        simp [hall m hm]

/-- C9, witness: on `exampleTable`, the unconditional word
`0xF0000000` decodes to `none`, and `0x0E000001` — which fails the
specific first pattern but passes the general second — decodes to the
second matcher. -/
theorem decodeVFP2_spec_witness :
    DecodeVFP2 exampleTable 0xF0000000 = none ∧
      DecodeVFP2 exampleTable 0x0E000001 = some { bits := 0x0E000000, mask := 0x0F000000 } :=
  ⟨(decodeVFP2_spec exampleTable 0xF0000000 (by norm_num)).1 (by decide),
    (((decodeVFP2_spec exampleTable 0x0E000001 (by norm_num)).2 (by decide)).1 _).mpr
      ⟨1, by decide, rfl, by decide, by decide⟩⟩

end Dynarmic
